import Mathlib

/-!
# Verification of the EEG-EMG-Transceiver-Drone control system

Shallow embedding of the core numeric and protocol code of the repository:

* `coordinate_mapper.py` — `CylindricalCoordinateMapper` (smoothing,
  normalization, deadzones, blink detection, cylindrical-to-velocity
  projection).  Python floats are modelled by `ℚ`; Python `int()`
  (truncation toward zero) is modelled by `pyInt`.
* `eeg_interface.py` — `MindWaveInterface` (ThinkGear frame decoding,
  checksum validation, payload parsing).  The serial byte stream is
  modelled by a `List ℕ`; reading consumes a prefix of the list.
* `tello_controller.py` — `TelloController` (connect retry loop,
  `send_rc_control` clamping, `disconnect`).
* `main.py` — the control-loop signal-quality gate and startup gating.
-/

/-- Python `int(q)` on a rational: truncation toward zero
(floor for non-negative arguments, ceiling for negative ones). -/
def pyInt (q : ℚ) : ℤ := if q < 0 then -⌊-q⌋ else ⌊q⌋

/-- Python builtin `max` of two values (kernel-computable). -/
def pymax {α : Type} [LinearOrder α] (a b : α) : α := if a < b then b else a

/-- Python builtin `min` of two values (kernel-computable). -/
def pymin {α : Type} [LinearOrder α] (a b : α) : α := if b < a then b else a

/-- Python builtin `abs` (kernel-computable). -/
def pyabs {α : Type} [LinearOrder α] [Neg α] [OfNat α 0] (a : α) : α :=
  if a < 0 then -a else a

/-- Python `str.lower()`: per-character lowercasing (which agrees with
Python on the ASCII reply strings the drone protocol uses). -/
def py_lower (s : String) : String := String.mk (s.data.map Char.toLower)


namespace Mapper

/-- The configuration fields of `config.Config` used by
`CylindricalCoordinateMapper` (`config.py`). -/
structure Config where
  ALPHA_MIN : ℚ
  ALPHA_MAX : ℚ
  R_MIN : ℚ
  R_MAX : ℚ
  THETA_MIN : ℚ
  THETA_MAX : ℚ
  Z_MIN : ℚ
  Z_MAX : ℚ
  SMOOTHING_FACTOR : ℚ
  R_DEADZONE : ℚ
  THETA_DEADZONE : ℚ
  Z_DEADZONE : ℚ
  CONTROL_MODE : ℕ
deriving DecidableEq

/-- The mutable state of `CylindricalCoordinateMapper`
(`coordinate_mapper.py`, `__init__`): the three smoothing accumulators
and the alpha history used by blink detection. -/
structure State where
  alpha_smoothed : ℚ
  attention_smoothed : ℚ
  meditation_smoothed : ℚ
  alpha_history : List ℚ
deriving DecidableEq

/-- Mapper state right after `__init__`: accumulators 0, empty history. -/
def initState : State := ⟨0, 0, 0, []⟩

/-- `normalize` (`coordinate_mapper.py` lines 78-83). -/
def normalize (value min_val max_val : ℚ) : ℚ :=
  if max_val = min_val then 1/2
  else pymax 0 (pymin 1 ((value - min_val) / (max_val - min_val)))

/-- `map_to_range` (lines 85-87). -/
def map_to_range (normalized_value out_min out_max : ℚ) : ℚ :=
  out_min + normalized_value * (out_max - out_min)

/-- `smooth_value` (lines 89-92): exponential moving average. -/
def smooth_value (cfg : Config) (new_value smoothed_value : ℚ) : ℚ :=
  cfg.SMOOTHING_FACTOR * smoothed_value + (1 - cfg.SMOOTHING_FACTOR) * new_value

/-- `apply_deadzone` (lines 94-98). -/
def apply_deadzone (value center deadzone : ℚ) : ℚ :=
  if pyabs (value - center) < deadzone then center else value

/-- `blink_threshold` (line 50). -/
def blink_threshold : ℚ := 300000

/-- lower bound of `normal_alpha_range` (line 51). -/
def normal_alpha_low : ℚ := 100000

/-- upper bound of `normal_alpha_range` (line 51). -/
def normal_alpha_high : ℚ := 200000

/-- The classification returned by `detect_blinking`. -/
inductive BlinkState where
  | blink
  | normal
  | low
deriving DecidableEq

/-- `detect_blinking` (lines 150-183): push the current alpha onto the
history (keeping the last 10 values), then classify. -/
def detect_blinking (st : State) (alpha_power : ℚ) : State × BlinkState :=
  let h0 := st.alpha_history ++ [alpha_power]
  let h := if h0.length > 10 then h0.tail else h0
  let st1 : State := { st with alpha_history := h }
  if h.length < 3 then (st1, .normal)
  else if alpha_power > blink_threshold then (st1, .blink)
  else if normal_alpha_low ≤ alpha_power ∧ alpha_power ≤ normal_alpha_high then
    (st1, .normal)
  else if alpha_power < normal_alpha_low then (st1, .low)
  else (st1, .normal)

/-- `map_alpha_to_forward_backward` (lines 185-205): blink = +1.0,
low = -1.0, otherwise -0.2. -/
def map_alpha_to_forward_backward (st : State) (alpha_power : ℚ) : State × ℚ :=
  let p := detect_blinking st alpha_power
  match p.2 with
  | .blink => (p.1, 1)
  | .low => (p.1, -1)
  | .normal => (p.1, -(1/5))

/-- `map_alpha_to_coordinates` (lines 100-148): smoothing, normalization,
mode-dependent mapping to (r, theta, z), then deadzones. -/
def map_alpha_to_coordinates (cfg : Config) (st : State)
    (alpha_power attention meditation : ℚ) : State × (ℚ × ℚ × ℚ) :=
  let st1 : State :=
    { st with
      alpha_smoothed := smooth_value cfg alpha_power st.alpha_smoothed
      attention_smoothed := smooth_value cfg attention st.attention_smoothed
      meditation_smoothed := smooth_value cfg meditation st.meditation_smoothed }
  let alpha_norm := normalize st1.alpha_smoothed cfg.ALPHA_MIN cfg.ALPHA_MAX
  let attention_norm := normalize st1.attention_smoothed 0 100
  let meditation_norm := normalize st1.meditation_smoothed 0 100
  let res :=
    if cfg.CONTROL_MODE = 1 then
      let p := map_alpha_to_forward_backward st1 alpha_power
      (p.1, map_to_range p.2 cfg.R_MIN cfg.R_MAX,
            map_to_range attention_norm cfg.THETA_MIN cfg.THETA_MAX,
            map_to_range meditation_norm cfg.Z_MIN cfg.Z_MAX)
    else if cfg.CONTROL_MODE = 2 then
      (st1, map_to_range attention_norm cfg.R_MIN cfg.R_MAX,
            map_to_range meditation_norm cfg.THETA_MIN cfg.THETA_MAX,
            map_to_range alpha_norm cfg.Z_MIN cfg.Z_MAX)
    else
      (st1, map_to_range alpha_norm cfg.R_MIN cfg.R_MAX,
            map_to_range attention_norm cfg.THETA_MIN cfg.THETA_MAX,
            map_to_range meditation_norm cfg.Z_MIN cfg.Z_MAX)
  match res with
  | (st2, r, theta, z) =>
    (st2,
     (apply_deadzone r ((cfg.R_MIN + cfg.R_MAX) / 2) cfg.R_DEADZONE,
      apply_deadzone theta 0 cfg.THETA_DEADZONE,
      apply_deadzone z ((cfg.Z_MIN + cfg.Z_MAX) / 2) cfg.Z_DEADZONE))

/-- `cylindrical_to_velocity` (lines 207-256).  `velocity_min`/`velocity_max`
are -100/100 (lines 62-63); `int(...)` is truncation toward zero; the final
clamp is `max(velocity_min, min(velocity_max, v))`. -/
def cylindrical_to_velocity (cfg : Config) (r theta z : ℚ) : ℤ × ℤ × ℤ × ℤ :=
  let r_center := (cfg.R_MIN + cfg.R_MAX) / 2
  let r_normalized := (r - r_center) / (cfg.R_MAX - r_center)
  let vy := pyInt (r_normalized * 100)
  let theta_normalized := theta / cfg.THETA_MAX
  let vyaw := pyInt (theta_normalized * 100)
  let z_center := (cfg.Z_MIN + cfg.Z_MAX) / 2
  let z_normalized := (z - z_center) / (cfg.Z_MAX - z_center)
  let vz := pyInt (z_normalized * 100)
  let vx := pyInt (theta_normalized * 100 * (4/5))
  (pymax (-100) (pymin 100 vx), pymax (-100) (pymin 100 vy),
   pymax (-100) (pymin 100 vz), pymax (-100) (pymin 100 vyaw))

/-- The configuration used by the end-to-end spec scenario: Mode 1, alpha
range 0..1000000, r in [0,100], theta in [-180,180], z in [0,100], all
deadzones zero, and smoothing factor 0 (so a single sample passes through
the exponential filter unchanged). -/
def endToEndConfig : Config :=
  { ALPHA_MIN := 0, ALPHA_MAX := 1000000
    R_MIN := 0, R_MAX := 100
    THETA_MIN := -180, THETA_MAX := 180
    Z_MIN := 0, Z_MAX := 100
    SMOOTHING_FACTOR := 0
    R_DEADZONE := 0, THETA_DEADZONE := 0, Z_DEADZONE := 0
    CONTROL_MODE := 1 }

end Mapper

/-- The `latest_data` dictionary of `MindWaveInterface`
(`eeg_interface.py` lines 47-61). -/
structure EEGData where
  signal_quality : ℕ
  attention : ℕ
  meditation : ℕ
  delta : ℕ
  theta : ℕ
  low_alpha : ℕ
  high_alpha : ℕ
  alpha : ℕ
  low_beta : ℕ
  high_beta : ℕ
  low_gamma : ℕ
  mid_gamma : ℕ
  raw_value : ℤ
deriving DecidableEq, Repr

/-- `latest_data` as initialised in `__init__`: signal quality 200
(no signal), all other fields 0. -/
def initialEEGData : EEGData :=
  { signal_quality := 200, attention := 0, meditation := 0, delta := 0,
    theta := 0, low_alpha := 0, high_alpha := 0, alpha := 0, low_beta := 0,
    high_beta := 0, low_gamma := 0, mid_gamma := 0, raw_value := 0 }

namespace MindWave

/-- `SYNC` byte (`eeg_interface.py` line 20). -/
def SYNC : ℕ := 0xAA

/-- `EXCODE` byte (line 21). -/
def EXCODE : ℕ := 0x55

/-- data code `CODE_POOR_SIGNAL` (line 24). -/
def CODE_POOR_SIGNAL : ℕ := 0x02

/-- data code `CODE_ATTENTION` (line 25). -/
def CODE_ATTENTION : ℕ := 0x04

/-- data code `CODE_MEDITATION` (line 26). -/
def CODE_MEDITATION : ℕ := 0x05

/-- data code `CODE_RAW_VALUE` (line 27). -/
def CODE_RAW_VALUE : ℕ := 0x80

/-- data code `CODE_ASIC_EEG_POWER` (line 28). -/
def CODE_ASIC_EEG_POWER : ℕ := 0x83

/-- `sum(payload) & 0xFF` (`_read_packet`, line 157). -/
def payload_sum (p : List ℕ) : ℕ := p.sum &&& 0xFF

/-- Python `(~s) & 0xFF`: `~s` is `-s-1`, and `& 0xFF` on a Python int is
a non-negative remainder mod 256 (line 158). -/
def tg_complement (s : ℕ) : ℕ := ((-(s : ℤ) - 1) % 256).toNat

/-- The sync-scanning loop of `_read_packet` (lines 122-131): consume
bytes until two consecutive `SYNC` bytes are found; return the rest of
the stream, or `none` if the stream runs out first. -/
def scan_sync : List ℕ → Option (List ℕ)
  | [] => none
  | b :: rest =>
    if b = SYNC then
      match rest with
      | [] => none
      | b2 :: rest2 => if b2 = SYNC then some rest2 else scan_sync rest2
    else scan_sync rest

/-- `_read_packet` (lines 116-166) on a byte stream: scan for sync,
read the payload-length byte (rejecting lengths over 169 before any
payload byte is read), read the payload and the checksum byte, and
validate the checksum.  Returns the accepted payload (or `none`) and
the portion of the stream that has not been consumed. -/
def read_packet (s : List ℕ) : Option (List ℕ) × List ℕ :=
  match scan_sync s with
  | none => (none, [])
  | some rest =>
    match rest with
    | [] => (none, [])
    | plength :: rest2 =>
      if plength > 169 then (none, rest2)
      else
        let payload := rest2.take plength
        if payload.length ≠ plength then (none, rest2.drop plength)
        else
          match rest2.drop plength with
          | [] => (none, [])
          | checksum :: rest3 =>
            if tg_complement (payload_sum payload) = checksum then (some payload, rest3)
            else (none, rest3)

/-- `struct.unpack('>h', ...)` on two bytes already combined big-endian:
reinterpret an unsigned 16-bit value as signed (line 200). -/
def toSigned16 (v : ℕ) : ℤ := if v < 32768 then (v : ℤ) else (v : ℤ) - 65536

/-- A synthetic ThinkGear frame placed at the head of a byte stream:
two sync bytes, the payload-length byte, the payload, a checksum byte
`c`, then the rest of the stream. -/
def frame (p : List ℕ) (c : ℕ) (rest : List ℕ) : List ℕ :=
  0xAA :: 0xAA :: p.length :: (p ++ c :: rest)

/-- A synthetic frame whose checksum byte is valid. -/
def good_frame (p : List ℕ) (rest : List ℕ) : List ℕ :=
  frame p (tg_complement (payload_sum p)) rest

/-- Big-endian 3-byte encoding of a value below 2^24 (the synthetic
encoder of the spec's band-power round-trip scenario). -/
def enc3 (v : ℕ) : List ℕ := [v / 65536, v / 256 % 256, v % 256]

/-- The `while i < len(payload)` loop of `_parse_packet` (lines 168-237).
The inner `while payload[i] == EXCODE` skip (lines 173-174) is modelled
by the first branch: it advances over an extension byte, and raises an
`IndexError` when the skipping runs past the end of the payload (Python
evaluates `payload[i]` there without a bounds check).  The boolean
result is `false` exactly when Python raises an `IndexError`; the
returned record is the state of `latest_data` at that moment, since the
Python code mutates it in place entry by entry. -/
def parse_loop (payload : List ℕ) (i : ℕ) (d : EEGData) : EEGData × Bool :=
  if i < payload.length then
    if payload.getD i 0 = EXCODE then
      if i + 1 < payload.length then parse_loop payload (i + 1) d
      else (d, false)
    else
      let code := payload.getD i 0
      let k := i + 1
      if code = CODE_POOR_SIGNAL then
        if k < payload.length then
          parse_loop payload (k + 1) { d with signal_quality := payload.getD k 0 }
        else (d, false)
      else if code = CODE_ATTENTION then
        if k < payload.length then
          parse_loop payload (k + 1) { d with attention := payload.getD k 0 }
        else (d, false)
      else if code = CODE_MEDITATION then
        if k < payload.length then
          parse_loop payload (k + 1) { d with meditation := payload.getD k 0 }
        else (d, false)
      else if code = CODE_RAW_VALUE then
        if k + 2 ≤ payload.length then
          parse_loop payload (k + 2)
            { d with raw_value := toSigned16 (payload.getD k 0 * 256 + payload.getD (k + 1) 0) }
        else parse_loop payload (k + 2) d
      else if code = CODE_ASIC_EEG_POWER then
        if k + 24 ≤ payload.length then
          let band := fun (j2 : ℕ) =>
            ((payload.getD (k + j2 * 3) 0) <<< 16) |||
              ((payload.getD (k + j2 * 3 + 1) 0) <<< 8) |||
              (payload.getD (k + j2 * 3 + 2) 0)
          parse_loop payload (k + 24)
            { d with delta := band 0, theta := band 1, low_alpha := band 2,
                     high_alpha := band 3, alpha := (band 2 + band 3) / 2,
                     low_beta := band 4, high_beta := band 5,
                     low_gamma := band 6, mid_gamma := band 7 }
        else parse_loop payload (k + 24) d
      else if code ≥ 0x80 then
        if k < payload.length then
          parse_loop payload (k + 1 + payload.getD k 0) d
        else (d, true)
      else
        parse_loop payload (k + 1) d
  else (d, true)
termination_by payload.length - i

/-- `_parse_packet` applied to a whole payload (entry at index 0). -/
def parse_packet (payload : List ℕ) (d : EEGData) : EEGData × Bool :=
  parse_loop payload 0 d

/-- One iteration of `_read_loop` (lines 103-114): read a packet and, if
one was accepted (and non-empty — Python `if packet:`), parse it.  Any
exception from parsing is caught inside the loop, so the stored data is
whatever the parser produced up to that point. -/
def read_loop_step (d : EEGData) (s : List ℕ) : EEGData × List ℕ :=
  match read_packet s with
  | (none, s2) => (d, s2)
  | (some p, s2) => (if p = [] then d else (parse_packet p d).1, s2)

/-- `is_signal_good` (lines 249-252). -/
def is_signal_good (d : EEGData) : Bool := decide (d.signal_quality < 50)

end MindWave

namespace Tello

/-- The check `response and response.lower() == "ok"` of
`TelloController.connect` (`tello_controller.py` line 87); `response`
is `None` on a timeout (from `send_command`). -/
def reply_is_ok (response : Option String) : Bool :=
  match response with
  | none => false
  | some s => (s != "") && (py_lower s == "ok")

/-- The `for attempt in range(3)` retry loop of `connect` (lines 83-98):
each attempt sends the `command` handshake and inspects the reply it
receives (`replies` lists the reply per attempt, `none` = timeout);
stops with success on the first affirmative reply. -/
def connect_go (replies : List (Option String)) (attempt : ℕ) : Bool :=
  if attempt < 3 then
    if reply_is_ok (replies.getD attempt none) then true
    else connect_go replies (attempt + 1)
  else false
termination_by 3 - attempt
decreasing_by simp_wf; omega

/-- `connect` (lines 55-112): runs the 3-attempt handshake loop; the
result is also the value of the `is_connected` flag afterwards (it is
set to `True` exactly on the successful attempt, line 88). -/
def connect (replies : List (Option String)) : Bool := connect_go replies 0

/-- The connection-related state of `TelloController` touched by
`disconnect` (lines 114-148). -/
structure LinkState where
  socket_present : Bool
  socket_open : Bool
  state_socket_open : Bool
  is_connected : Bool
  abort : Bool
  state_running : Bool
deriving DecidableEq, Repr

/-- `TelloController` state right after `__init__`: sockets created but
never connected. -/
def freshLink : LinkState :=
  { socket_present := true, socket_open := true, state_socket_open := false,
    is_connected := false, abort := false, state_running := false }

/-- `disconnect` (lines 114-148): set the abort flags, send `emergency`
only when a socket exists and `is_connected` is set, close the sockets
(each close wrapped in try/except), clear `is_connected`.  The returned
list holds the commands transmitted during the call. -/
def disconnect (st : LinkState) : LinkState × List String :=
  let st1 : LinkState := { st with abort := true, state_running := false }
  let sent : List String :=
    if st1.socket_present && st1.is_connected then ["emergency"] else []
  let st2 : LinkState :=
    { st1 with socket_open := false, state_socket_open := false, is_connected := false }
  (st2, sent)

/-- `send_rc_control` (lines 274-291): truncate each argument with
`int(...)`, clamp to [-100, 100], and format the `rc` command string
that is transmitted.  Returns the four clamped integers together with
the command string. -/
def send_rc_control (left_right forward_backward up_down yaw : ℚ) :
    (ℤ × ℤ × ℤ × ℤ) × String :=
  let lr := pymax (-100) (pymin 100 (pyInt left_right))
  let fb := pymax (-100) (pymin 100 (pyInt forward_backward))
  let ud := pymax (-100) (pymin 100 (pyInt up_down))
  let y := pymax (-100) (pymin 100 (pyInt yaw))
  ((lr, fb, ud, y),
   "rc " ++ toString lr ++ " " ++ toString fb ++ " " ++ toString ud ++ " " ++ toString y)

end Tello

namespace Main

/-- `Config.MAX_POOR_SIGNAL` (`config.py` line 78). -/
def MAX_POOR_SIGNAL : ℕ := 50

/-- The signal-quality gate of the control loop (`main.py` line 177):
command issuance is suppressed for the tick exactly when
`signal_quality > MAX_POOR_SIGNAL`. -/
def tick_suppressed (signal_quality max_poor : ℕ) : Bool :=
  decide (signal_quality > max_poor)

/-- The drone-connection retry loop of `EEGDroneController.initialize`
(`main.py` lines 101-124): call `drone.connect()` up to 3 times
(`reply_rounds` lists the handshake replies seen by each round);
initialisation fails if every round fails. -/
def drone_init (reply_rounds : List (List (Option String))) : Bool :=
  (reply_rounds.take 3).any (fun l => Tello.connect l)

/-- The gating in `EEGDroneController.start` (`main.py` lines 145-149):
if initialisation fails, `start` returns before the control loop, so
none of the commands the loop would send (`loop_cmds`) is transmitted. -/
def start_commands (reply_rounds : List (List (Option String)))
    (loop_cmds : List String) : List String :=
  if drone_init reply_rounds then loop_cmds else []

end Main

/-! ## Helper lemmas -/

theorem le_pymax_left {α : Type} [LinearOrder α] (a b : α) : a ≤ pymax a b := by
  unfold pymax
  split_ifs with h
  · exact h.le
  · exact le_refl a

theorem pymax_le {α : Type} [LinearOrder α] {a b c : α} (h1 : a ≤ c) (h2 : b ≤ c) :
    pymax a b ≤ c := by
  unfold pymax
  split_ifs <;> assumption

theorem pymin_le_left {α : Type} [LinearOrder α] (a b : α) : pymin a b ≤ a := by
  unfold pymin
  split_ifs with h
  · exact h.le
  · exact le_refl a

theorem le_pymin {α : Type} [LinearOrder α] {a b c : α} (h1 : c ≤ a) (h2 : c ≤ b) :
    c ≤ pymin a b := by
  unfold pymin
  split_ifs <;> assumption

theorem clamp100_mem (v : ℤ) :
    -100 ≤ pymax (-100) (pymin 100 v) ∧ pymax (-100) (pymin 100 v) ≤ 100 :=
  ⟨le_pymax_left _ _, pymax_le (by norm_num) (pymin_le_left _ _)⟩

namespace Mapper

theorem normalize_mem (v lo hi : ℚ) : 0 ≤ normalize v lo hi ∧ normalize v lo hi ≤ 1 := by
  unfold normalize
  split_ifs with h
  · norm_num
  · exact ⟨le_pymax_left _ _, pymax_le (by norm_num) (pymin_le_left _ _)⟩

theorem map_to_range_mem {t lo hi : ℚ} (h0 : 0 ≤ t) (h1 : t ≤ 1) (hlh : lo ≤ hi) :
    lo ≤ map_to_range t lo hi ∧ map_to_range t lo hi ≤ hi := by
  unfold map_to_range
  constructor
  · nlinarith
  · nlinarith

theorem apply_deadzone_mem {v c lo hi : ℚ} (dz : ℚ) (hc1 : lo ≤ c) (hc2 : c ≤ hi)
    (hv1 : lo ≤ v) (hv2 : v ≤ hi) :
    lo ≤ apply_deadzone v c dz ∧ apply_deadzone v c dz ≤ hi := by
  unfold apply_deadzone
  split_ifs
  · exact ⟨hc1, hc2⟩
  · exact ⟨hv1, hv2⟩

theorem deadzone_map_mem {t lo hi c : ℚ} (dz : ℚ) (h0 : 0 ≤ t) (h1 : t ≤ 1)
    (hlh : lo ≤ hi) (hc1 : lo ≤ c) (hc2 : c ≤ hi) :
    lo ≤ apply_deadzone (map_to_range t lo hi) c dz ∧
      apply_deadzone (map_to_range t lo hi) c dz ≤ hi :=
  apply_deadzone_mem dz hc1 hc2 (map_to_range_mem h0 h1 hlh).1 (map_to_range_mem h0 h1 hlh).2

end Mapper

/-! ## Claims -/

/-- Claim C1, counterexample to the claim as stated: with Mode 1, alpha
range 0..1000000, r in [0,100], theta in [-180,180], z in [0,100], zero
deadzones (and no smoothing, so the single sample passes through), the
single input alpha_power = 500000, attention = 50, meditation = 50 does
NOT map to (50, 0, 50): Mode 1 derives r from blink detection, not from
normalized alpha. -/
theorem spec_c1_end_to_end_counterexample :
    (Mapper.map_alpha_to_coordinates Mapper.endToEndConfig Mapper.initState
        500000 50 50).2 ≠ (50, 0, 50) := by
  norm_num [Mapper.map_alpha_to_coordinates, Mapper.map_alpha_to_forward_backward,
    Mapper.detect_blinking, Mapper.smooth_value, Mapper.normalize, Mapper.map_to_range,
    Mapper.apply_deadzone, pymax, pymin, pyabs, Mapper.endToEndConfig, Mapper.initState,
    Mapper.blink_threshold, Mapper.normal_alpha_low, Mapper.normal_alpha_high]

/-- Claim C1, amended: under the same configuration, the single input
alpha_power = 500000, attention = 50, meditation = 50 yields
(r, theta, z) = (-20, 0, 50) — a lone reading classifies as 'normal'
in the blink detector, giving the forward/backward scalar -0.2 and
hence r = -20 — and `cylindrical_to_velocity` on that triple yields
(vx, vy, vz, vyaw) = (0, -100, 0, 0). -/
theorem spec_c1_end_to_end :
    (Mapper.map_alpha_to_coordinates Mapper.endToEndConfig Mapper.initState
        500000 50 50).2 = (-20, 0, 50) ∧
    Mapper.cylindrical_to_velocity Mapper.endToEndConfig (-20) 0 50 = (0, -100, 0, 0) := by
  constructor
  · norm_num [Mapper.map_alpha_to_coordinates, Mapper.map_alpha_to_forward_backward,
      Mapper.detect_blinking, Mapper.smooth_value, Mapper.normalize, Mapper.map_to_range,
      Mapper.apply_deadzone, pymax, pymin, pyabs, Mapper.endToEndConfig, Mapper.initState,
      Mapper.blink_threshold, Mapper.normal_alpha_low, Mapper.normal_alpha_high]
  · norm_num [Mapper.cylindrical_to_velocity, pyInt, pymax, pymin, Mapper.endToEndConfig]

/-- Claim C2, counterexample to the claim as stated: in control Mode 1
the returned r is not clamped into [R_MIN, R_MAX] — a single reading
of alpha_power = 500000 classifies 'normal', giving r = -20 < R_MIN = 0. -/
theorem spec_c2_ranges_counterexample :
    ((Mapper.map_alpha_to_coordinates Mapper.endToEndConfig Mapper.initState
        500000 50 50).2).1 < Mapper.endToEndConfig.R_MIN := by
  norm_num [Mapper.map_alpha_to_coordinates, Mapper.map_alpha_to_forward_backward,
    Mapper.detect_blinking, Mapper.smooth_value, Mapper.normalize, Mapper.map_to_range,
    Mapper.apply_deadzone, pymax, pymin, pyabs, Mapper.endToEndConfig, Mapper.initState,
    Mapper.blink_threshold, Mapper.normal_alpha_low, Mapper.normal_alpha_high]

/-- Claim C2, amended: for every control mode other than 1 (Mode 2 and
the default fallback), every mapper state and every input triple, the
returned (r, theta, z) lies within the configured ranges, provided the
configured ranges are well-formed (R_MIN ≤ R_MAX, Z_MIN ≤ Z_MAX and
THETA_MIN ≤ 0 ≤ THETA_MAX — the theta deadzone snaps to 0).  In Mode 1,
r can leave [R_MIN, R_MAX] (see the counterexample). -/
theorem spec_c2_ranges (cfg : Mapper.Config) (st : Mapper.State)
    (alpha_power attention meditation : ℚ) (hmode : cfg.CONTROL_MODE ≠ 1)
    (hr : cfg.R_MIN ≤ cfg.R_MAX) (hz : cfg.Z_MIN ≤ cfg.Z_MAX)
    (ht0 : cfg.THETA_MIN ≤ 0) (ht1 : 0 ≤ cfg.THETA_MAX) :
    cfg.R_MIN ≤ ((Mapper.map_alpha_to_coordinates cfg st alpha_power attention meditation).2).1 ∧
    ((Mapper.map_alpha_to_coordinates cfg st alpha_power attention meditation).2).1 ≤ cfg.R_MAX ∧
    cfg.THETA_MIN ≤ ((Mapper.map_alpha_to_coordinates cfg st alpha_power attention meditation).2).2.1 ∧
    ((Mapper.map_alpha_to_coordinates cfg st alpha_power attention meditation).2).2.1 ≤ cfg.THETA_MAX ∧
    cfg.Z_MIN ≤ ((Mapper.map_alpha_to_coordinates cfg st alpha_power attention meditation).2).2.2 ∧
    ((Mapper.map_alpha_to_coordinates cfg st alpha_power attention meditation).2).2.2 ≤ cfg.Z_MAX := by
  have hth : cfg.THETA_MIN ≤ cfg.THETA_MAX := le_trans ht0 ht1
  unfold Mapper.map_alpha_to_coordinates
  simp only [if_neg hmode]
  by_cases h2 : cfg.CONTROL_MODE = 2
  · simp only [if_pos h2]
    refine ⟨?_, ?_, ?_, ?_, ?_, ?_⟩
    · exact (Mapper.deadzone_map_mem _ (Mapper.normalize_mem _ _ _).1
        (Mapper.normalize_mem _ _ _).2 hr (by linarith) (by linarith)).1
    · exact (Mapper.deadzone_map_mem _ (Mapper.normalize_mem _ _ _).1
        (Mapper.normalize_mem _ _ _).2 hr (by linarith) (by linarith)).2
    · exact (Mapper.deadzone_map_mem _ (Mapper.normalize_mem _ _ _).1
        (Mapper.normalize_mem _ _ _).2 hth ht0 ht1).1
    · exact (Mapper.deadzone_map_mem _ (Mapper.normalize_mem _ _ _).1
        (Mapper.normalize_mem _ _ _).2 hth ht0 ht1).2
    · exact (Mapper.deadzone_map_mem _ (Mapper.normalize_mem _ _ _).1
        (Mapper.normalize_mem _ _ _).2 hz (by linarith) (by linarith)).1
    · exact (Mapper.deadzone_map_mem _ (Mapper.normalize_mem _ _ _).1
        (Mapper.normalize_mem _ _ _).2 hz (by linarith) (by linarith)).2
  · simp only [if_neg h2]
    refine ⟨?_, ?_, ?_, ?_, ?_, ?_⟩
    · exact (Mapper.deadzone_map_mem _ (Mapper.normalize_mem _ _ _).1
        (Mapper.normalize_mem _ _ _).2 hr (by linarith) (by linarith)).1
    · exact (Mapper.deadzone_map_mem _ (Mapper.normalize_mem _ _ _).1
        (Mapper.normalize_mem _ _ _).2 hr (by linarith) (by linarith)).2
    · exact (Mapper.deadzone_map_mem _ (Mapper.normalize_mem _ _ _).1
        (Mapper.normalize_mem _ _ _).2 hth ht0 ht1).1
    · exact (Mapper.deadzone_map_mem _ (Mapper.normalize_mem _ _ _).1
        (Mapper.normalize_mem _ _ _).2 hth ht0 ht1).2
    · exact (Mapper.deadzone_map_mem _ (Mapper.normalize_mem _ _ _).1
        (Mapper.normalize_mem _ _ _).2 hz (by linarith) (by linarith)).1
    · exact (Mapper.deadzone_map_mem _ (Mapper.normalize_mem _ _ _).1
        (Mapper.normalize_mem _ _ _).2 hz (by linarith) (by linarith)).2

/-- Claim C2 witness: the amended range theorem applied in Mode 2 with
the default range configuration. -/
theorem spec_c2_ranges_witness :
    ({ Mapper.endToEndConfig with CONTROL_MODE := 2 } : Mapper.Config).CONTROL_MODE ≠ 1 ∧
    (0 : ℚ) ≤ ((Mapper.map_alpha_to_coordinates
        { Mapper.endToEndConfig with CONTROL_MODE := 2 }
        Mapper.initState 500000 50 50).2).1 :=
  ⟨by norm_num [Mapper.endToEndConfig],
   (spec_c2_ranges { Mapper.endToEndConfig with CONTROL_MODE := 2 } Mapper.initState
      500000 50 50 (by norm_num [Mapper.endToEndConfig])
      (by norm_num [Mapper.endToEndConfig]) (by norm_num [Mapper.endToEndConfig])
      (by norm_num [Mapper.endToEndConfig]) (by norm_num [Mapper.endToEndConfig])).1⟩

/-- Claim C3: for every configuration (whose projection denominators are
nonzero, as in the default configuration — in Python a zero denominator
would raise before any value is produced) and every real-valued input
triple (r, theta, z), all four outputs of `cylindrical_to_velocity` are
integers in [-100, 100] (the intermediate reals are truncated toward
zero by `pyInt`); likewise, for any real-valued arguments to
`send_rc_control`, the four numbers placed in the transmitted `rc`
command string are integers in [-100, 100]. -/
theorem spec_c3_velocity_bounds (cfg : Mapper.Config) (r theta z : ℚ)
    (h1 : (cfg.R_MIN + cfg.R_MAX) / 2 ≠ cfg.R_MAX) (h2 : cfg.THETA_MAX ≠ 0)
    (h3 : (cfg.Z_MIN + cfg.Z_MAX) / 2 ≠ cfg.Z_MAX) :
    (-100 ≤ (Mapper.cylindrical_to_velocity cfg r theta z).1 ∧
      (Mapper.cylindrical_to_velocity cfg r theta z).1 ≤ 100) ∧
    (-100 ≤ (Mapper.cylindrical_to_velocity cfg r theta z).2.1 ∧
      (Mapper.cylindrical_to_velocity cfg r theta z).2.1 ≤ 100) ∧
    (-100 ≤ (Mapper.cylindrical_to_velocity cfg r theta z).2.2.1 ∧
      (Mapper.cylindrical_to_velocity cfg r theta z).2.2.1 ≤ 100) ∧
    (-100 ≤ (Mapper.cylindrical_to_velocity cfg r theta z).2.2.2 ∧
      (Mapper.cylindrical_to_velocity cfg r theta z).2.2.2 ≤ 100) ∧
    (∀ a b c d : ℚ,
      (-100 ≤ ((Tello.send_rc_control a b c d).1).1 ∧
        ((Tello.send_rc_control a b c d).1).1 ≤ 100) ∧
      (-100 ≤ ((Tello.send_rc_control a b c d).1).2.1 ∧
        ((Tello.send_rc_control a b c d).1).2.1 ≤ 100) ∧
      (-100 ≤ ((Tello.send_rc_control a b c d).1).2.2.1 ∧
        ((Tello.send_rc_control a b c d).1).2.2.1 ≤ 100) ∧
      (-100 ≤ ((Tello.send_rc_control a b c d).1).2.2.2 ∧
        ((Tello.send_rc_control a b c d).1).2.2.2 ≤ 100) ∧
      (Tello.send_rc_control a b c d).2 =
        "rc " ++ toString ((Tello.send_rc_control a b c d).1).1 ++ " " ++
          toString ((Tello.send_rc_control a b c d).1).2.1 ++ " " ++
          toString ((Tello.send_rc_control a b c d).1).2.2.1 ++ " " ++
          toString ((Tello.send_rc_control a b c d).1).2.2.2) := by
  refine ⟨clamp100_mem _, clamp100_mem _, clamp100_mem _, clamp100_mem _, ?_⟩
  intro a b c d
  exact ⟨clamp100_mem _, clamp100_mem _, clamp100_mem _, clamp100_mem _, rfl⟩

/-- Claim C3 witness: the bounds applied to the default configuration at
the neutral triple (50, 0, 50). -/
theorem spec_c3_velocity_bounds_witness :
    ((Mapper.endToEndConfig.R_MIN + Mapper.endToEndConfig.R_MAX) / 2 ≠
      Mapper.endToEndConfig.R_MAX) ∧
    (-100 ≤ (Mapper.cylindrical_to_velocity Mapper.endToEndConfig 50 0 50).1 ∧
      (Mapper.cylindrical_to_velocity Mapper.endToEndConfig 50 0 50).1 ≤ 100) :=
  ⟨by norm_num [Mapper.endToEndConfig],
   (spec_c3_velocity_bounds Mapper.endToEndConfig 50 0 50
      (by norm_num [Mapper.endToEndConfig]) (by norm_num [Mapper.endToEndConfig])
      (by norm_num [Mapper.endToEndConfig])).1⟩

/-- Claim C7: with the default threshold 50, stored signal-quality 0 and
49 classify good, 50 and 200 classify poor; `is_signal_good` holds
exactly for signal_quality below 50, and the control loop suppresses a
tick exactly when signal_quality strictly exceeds `MAX_POOR_SIGNAL`. -/
theorem spec_c7_signal_gate :
    MindWave.is_signal_good { initialEEGData with signal_quality := 0 } = true ∧
    MindWave.is_signal_good { initialEEGData with signal_quality := 49 } = true ∧
    MindWave.is_signal_good { initialEEGData with signal_quality := 50 } = false ∧
    MindWave.is_signal_good { initialEEGData with signal_quality := 200 } = false ∧
    (∀ d : EEGData, MindWave.is_signal_good d = true ↔ d.signal_quality < 50) ∧
    (∀ q : ℕ, Main.tick_suppressed q Main.MAX_POOR_SIGNAL = true ↔ 50 < q) := by
  refine ⟨rfl, rfl, rfl, rfl, ?_, ?_⟩
  · intro d
    simp [MindWave.is_signal_good]
  · intro q
    simp [Main.tick_suppressed, Main.MAX_POOR_SIGNAL]

/-- Claim C9, counterexample to the claim as stated: on a controller
that was never connected, `disconnect` transmits nothing at all — the
emergency stop is guarded by `self.is_connected`, so it is not sent
"regardless of prior connection state". -/
theorem spec_c9_disconnect_counterexample :
    (Tello.disconnect Tello.freshLink).2 = [] ∧
    ¬ "emergency" ∈ (Tello.disconnect Tello.freshLink).2 := by
  constructor
  · rfl
  · intro h
    simp [Tello.disconnect, Tello.freshLink] at h

/-- Claim C9, amended: `disconnect` sends the emergency stop exactly
when a socket is present and the link was connected (not regardless of
connection state); it always clears the connection flag, sets the abort
flags, and closes the sockets; calling it again (or calling it on a
never-connected controller) raises no error, sends nothing, and leaves
the state unchanged and disconnected. -/
theorem spec_c9_disconnect (st : Tello.LinkState) :
    ((Tello.disconnect st).2 =
      if st.socket_present && st.is_connected then ["emergency"] else []) ∧
    (Tello.disconnect st).1.is_connected = false ∧
    (Tello.disconnect st).1.abort = true ∧
    (Tello.disconnect st).1.state_running = false ∧
    (Tello.disconnect st).1.socket_open = false ∧
    (Tello.disconnect ((Tello.disconnect st).1)).1 = (Tello.disconnect st).1 ∧
    (Tello.disconnect ((Tello.disconnect st).1)).2 = [] := by
  refine ⟨rfl, rfl, rfl, rfl, rfl, rfl, ?_⟩
  simp [Tello.disconnect]

namespace MindWave

theorem read_packet_frame (p : List ℕ) (c : ℕ) (rest : List ℕ) (hp : p.length ≤ 169) :
    read_packet (frame p c rest) =
      if tg_complement (payload_sum p) = c then (some p, rest) else (none, rest) := by
  have hscan : scan_sync (frame p c rest) = some (p.length :: (p ++ c :: rest)) := by
    unfold frame scan_sync
    simp [SYNC]
  unfold read_packet
  rw [hscan]
  simp only [List.take_left, List.drop_left]
  rw [if_neg (by omega : ¬ p.length > 169)]
  simp

end MindWave

/-- Claim C4: a frame's payload is accepted exactly when its checksum
byte equals the bitwise complement of (sum of payload bytes mod 256)
restricted to 8 bits; on a mismatch the whole frame is discarded, the
sample store is left untouched by that read-loop iteration, and the
decoder resumes at the byte after the bad frame, so the next valid
frame in the stream is decoded normally. -/
theorem spec_c4_checksum (p1 p2 : List ℕ) (c1 : ℕ) (rest : List ℕ) (d : EEGData)
    (hp1 : p1.length ≤ 169) (hp2 : p2.length ≤ 169)
    (hbad : MindWave.tg_complement (MindWave.payload_sum p1) ≠ c1) :
    (∀ c rest2, MindWave.read_packet (MindWave.frame p1 c rest2) =
        if MindWave.tg_complement (MindWave.payload_sum p1) = c then (some p1, rest2)
        else (none, rest2)) ∧
    MindWave.read_packet (MindWave.frame p1 c1 (MindWave.good_frame p2 rest)) =
      (none, MindWave.good_frame p2 rest) ∧
    MindWave.read_loop_step d (MindWave.frame p1 c1 (MindWave.good_frame p2 rest)) =
      (d, MindWave.good_frame p2 rest) ∧
    MindWave.read_packet (MindWave.good_frame p2 rest) = (some p2, rest) := by
  have h1 : MindWave.read_packet (MindWave.frame p1 c1 (MindWave.good_frame p2 rest)) =
      (none, MindWave.good_frame p2 rest) := by
    rw [MindWave.read_packet_frame p1 c1 _ hp1, if_neg hbad]
  refine ⟨fun c rest2 => MindWave.read_packet_frame p1 c rest2 hp1, h1, ?_, ?_⟩
  · unfold MindWave.read_loop_step
    rw [h1]
  · rw [MindWave.good_frame, MindWave.read_packet_frame p2 _ rest hp2, if_pos rfl]

/-- Claim C4 witness: the checksum theorem applied to the one-byte
payload [2] with corrupted checksum 0, followed by a valid frame for
the payload [4, 7]. -/
theorem spec_c4_checksum_witness :
    MindWave.tg_complement (MindWave.payload_sum [2]) ≠ 0 ∧
    MindWave.read_packet (MindWave.frame [2] 0 (MindWave.good_frame [4, 7] [9])) =
      (none, MindWave.good_frame [4, 7] [9]) :=
  ⟨by decide,
   (spec_c4_checksum [2] [4, 7] 0 [9] initialEEGData (by decide) (by decide)
      (by decide)).2.1⟩

/-- Claim C10: a frame whose declared payload-length byte exceeds 169 is
discarded right after the length byte — no payload or checksum byte is
consumed and the sample store is untouched, whatever the following
bytes are; consequently every payload `read_packet` accepts has length
at most 169. -/
theorem spec_c10_oversize :
    (∀ (n : ℕ) (rest : List ℕ), 169 < n →
      MindWave.read_packet (0xAA :: 0xAA :: n :: rest) = (none, rest)) ∧
    (∀ (d : EEGData) (n : ℕ) (rest : List ℕ), 169 < n →
      MindWave.read_loop_step d (0xAA :: 0xAA :: n :: rest) = (d, rest)) ∧
    (∀ (s p : List ℕ) (s2 : List ℕ), MindWave.read_packet s = (some p, s2) →
      p.length ≤ 169) := by
  have key : ∀ (n : ℕ) (rest : List ℕ), 169 < n →
      MindWave.read_packet (0xAA :: 0xAA :: n :: rest) = (none, rest) := by
    intro n rest hn
    have hscan : MindWave.scan_sync (0xAA :: 0xAA :: n :: rest) = some (n :: rest) := by
      unfold MindWave.scan_sync
      simp [MindWave.SYNC]
    unfold MindWave.read_packet
    rw [hscan]
    simp only []
    rw [if_pos (by omega : n > 169)]
  refine ⟨key, ?_, ?_⟩
  · intro d n rest hn
    unfold MindWave.read_loop_step
    rw [key n rest hn]
  · intro s p s2 h
    unfold MindWave.read_packet at h
    cases hscan : MindWave.scan_sync s with
    | none =>
      rw [hscan] at h
      simp at h
    | some rest =>
      rw [hscan] at h
      cases rest with
      | nil => simp at h
      | cons plength rest2 =>
        simp only [] at h
        split at h
        · simp at h
        · split at h
          · simp at h
          · split at h
            · simp at h
            · split at h
              · simp only [Prod.mk.injEq, Option.some.injEq] at h
                obtain ⟨hp, -⟩ := h
                subst hp
                rw [List.length_take]
                omega
              · simp at h

/-- Claim C10 witness: a frame declaring payload length 170 is rejected
with the following bytes left unconsumed. -/
theorem spec_c10_oversize_witness :
    169 < 170 ∧
    MindWave.read_packet (0xAA :: 0xAA :: 170 :: [1, 2, 3]) = (none, [1, 2, 3]) :=
  ⟨by norm_num, spec_c10_oversize.1 170 [1, 2, 3] (by norm_num)⟩

namespace MindWave

theorem parse_loop_exit (payload : List ℕ) (i : ℕ) (d : EEGData)
    (h : ¬ i < payload.length) : parse_loop payload i d = (d, true) := by
  unfold parse_loop
  rw [if_neg h]

end MindWave

/-- Claim C5, counterexample to the claim as stated: a payload that ends
with a single-byte code (here the signal-quality code 0x02 with no value
byte after it) does NOT terminate parsing cleanly — `_parse_packet`
reads `payload[i]` past the end and raises an `IndexError` (the `false`
flag in the model), which only the read loop's catch-all contains. -/
theorem spec_c5_truncated_counterexample :
    MindWave.parse_packet [MindWave.CODE_POOR_SIGNAL] initialEEGData =
      (initialEEGData, false) := by
  simp [MindWave.parse_packet, MindWave.parse_loop, MindWave.EXCODE,
    MindWave.CODE_POOR_SIGNAL]

/-- Claim C5, amended: truncated raw-wave and band-power entries make
parsing terminate normally without an error, but a single-byte code
(signal quality, attention, meditation) in the last position, or an
extension marker ending the payload, raises an `IndexError` inside
`_parse_packet` (caught by the read loop); in every case the fields
already stored — in particular those parsed from earlier entries of the
same payload, as in the last conjunct — remain stored. -/
theorem spec_c5_truncated (d : EEGData) :
    (∀ c, (c = MindWave.CODE_POOR_SIGNAL ∨ c = MindWave.CODE_ATTENTION ∨
        c = MindWave.CODE_MEDITATION) → MindWave.parse_packet [c] d = (d, false)) ∧
    MindWave.parse_packet [MindWave.CODE_RAW_VALUE] d = (d, true) ∧
    (∀ x, MindWave.parse_packet [MindWave.CODE_RAW_VALUE, x] d = (d, true)) ∧
    (∀ t : List ℕ, t.length < 24 →
      MindWave.parse_packet (MindWave.CODE_ASIC_EEG_POWER :: t) d = (d, true)) ∧
    MindWave.parse_packet [MindWave.EXCODE] d = (d, false) ∧
    MindWave.parse_packet [MindWave.CODE_ATTENTION, 37, MindWave.CODE_POOR_SIGNAL] d =
      ({ d with attention := 37 }, false) := by
  refine ⟨?_, ?_, ?_, ?_, ?_, ?_⟩
  · intro c hc
    rcases hc with h | h | h <;> subst h <;>
      simp [MindWave.parse_packet, MindWave.parse_loop, MindWave.EXCODE,
        MindWave.CODE_POOR_SIGNAL, MindWave.CODE_ATTENTION, MindWave.CODE_MEDITATION]
  · simp [MindWave.parse_packet, MindWave.parse_loop, MindWave.EXCODE,
      MindWave.CODE_POOR_SIGNAL, MindWave.CODE_ATTENTION, MindWave.CODE_MEDITATION,
      MindWave.CODE_RAW_VALUE, MindWave.CODE_ASIC_EEG_POWER]
  · intro x
    simp [MindWave.parse_packet, MindWave.parse_loop, MindWave.EXCODE,
      MindWave.CODE_POOR_SIGNAL, MindWave.CODE_ATTENTION, MindWave.CODE_MEDITATION,
      MindWave.CODE_RAW_VALUE, MindWave.CODE_ASIC_EEG_POWER]
  · intro t ht
    unfold MindWave.parse_packet MindWave.parse_loop
    rw [if_pos (by simp : 0 < (MindWave.CODE_ASIC_EEG_POWER :: t).length)]
    norm_num [MindWave.EXCODE, MindWave.CODE_POOR_SIGNAL, MindWave.CODE_ATTENTION,
      MindWave.CODE_MEDITATION, MindWave.CODE_RAW_VALUE, MindWave.CODE_ASIC_EEG_POWER]
    rw [if_neg (by omega : ¬ 25 ≤ t.length + 1)]
    exact MindWave.parse_loop_exit _ _ _ (by simp; omega)
  · simp [MindWave.parse_packet, MindWave.parse_loop, MindWave.EXCODE]
  · simp [MindWave.parse_packet, MindWave.parse_loop, MindWave.EXCODE,
      MindWave.CODE_POOR_SIGNAL, MindWave.CODE_ATTENTION, MindWave.CODE_MEDITATION]

/-- Claim C5 witness: the truncation theorem applied to a band-power
code with an empty tail, on a store already holding attention 9. -/
theorem spec_c5_truncated_witness :
    ([] : List ℕ).length < 24 ∧
    MindWave.parse_packet [MindWave.CODE_ASIC_EEG_POWER]
        { initialEEGData with attention := 9 } =
      ({ initialEEGData with attention := 9 }, true) :=
  ⟨by norm_num,
   (spec_c5_truncated { initialEEGData with attention := 9 }).2.2.2.1 [] (by norm_num)⟩

namespace MindWave

theorem lor3_eq (a b c : ℕ) (hb : b < 256) (hc : c < 256) :
    a <<< 16 ||| b <<< 8 ||| c = a * 65536 + b * 256 + c := by
  have h1 : a <<< 16 = a * 65536 := by
    rw [Nat.shiftLeft_eq]
  have h2 : b <<< 8 = b * 256 := by
    rw [Nat.shiftLeft_eq]
  rw [h1, h2]
  have h3 : a * 65536 ||| b * 256 = a * 65536 + b * 256 := by
    have h := Nat.mul_add_lt_is_or (b := b * 256) (i := 16) (by omega) a
    calc a * 65536 ||| b * 256 = 2 ^ 16 * a ||| b * 256 := by ring_nf
      _ = 2 ^ 16 * a + b * 256 := h.symm
      _ = a * 65536 + b * 256 := by ring
  rw [h3]
  have h4 : a * 65536 + b * 256 = 2 ^ 8 * (a * 256 + b) := by ring
  rw [h4]
  have h5 := Nat.mul_add_lt_is_or (b := c) (i := 8) (by omega) (a * 256 + b)
  rw [← h5]

theorem enc3_round (v : ℕ) :
    (v / 65536) <<< 16 ||| (v / 256 % 256) <<< 8 ||| (v % 256) = v := by
  rw [lor3_eq _ _ _ (Nat.mod_lt _ (by norm_num)) (Nat.mod_lt _ (by norm_num))]
  omega

theorem parse_asic_eval (d : EEGData) (x0 x1 x2 x3 x4 x5 x6 x7 x8 x9 x10 x11 x12 x13 x14 x15 x16 x17 x18 x19 x20 x21 x22 x23 : ℕ) :
    parse_packet (CODE_ASIC_EEG_POWER :: [x0, x1, x2, x3, x4, x5, x6, x7, x8, x9, x10, x11, x12, x13, x14, x15, x16, x17, x18, x19, x20, x21, x22, x23]) d =
    ({ d with
      delta := x0 <<< 16 ||| x1 <<< 8 ||| x2
      theta := x3 <<< 16 ||| x4 <<< 8 ||| x5
      low_alpha := x6 <<< 16 ||| x7 <<< 8 ||| x8
      high_alpha := x9 <<< 16 ||| x10 <<< 8 ||| x11
      alpha := ((x6 <<< 16 ||| x7 <<< 8 ||| x8) + (x9 <<< 16 ||| x10 <<< 8 ||| x11)) / 2
      low_beta := x12 <<< 16 ||| x13 <<< 8 ||| x14
      high_beta := x15 <<< 16 ||| x16 <<< 8 ||| x17
      low_gamma := x18 <<< 16 ||| x19 <<< 8 ||| x20
      mid_gamma := x21 <<< 16 ||| x22 <<< 8 ||| x23 }, true) := by
  simp [MindWave.parse_packet, MindWave.parse_loop, MindWave.EXCODE,
    MindWave.CODE_POOR_SIGNAL, MindWave.CODE_ATTENTION, MindWave.CODE_MEDITATION,
    MindWave.CODE_RAW_VALUE, MindWave.CODE_ASIC_EEG_POWER]

end MindWave

/-- Claim C6, counterexample to the claim as stated: with low_alpha = 0
and high_alpha = 1 the stored combined alpha is 0 (Python floor division
`//`), which is not the average 1/2 of the two stored band values. -/
theorem spec_c6_band_counterexample :
    (MindWave.parse_packet (MindWave.CODE_ASIC_EEG_POWER ::
        (MindWave.enc3 0 ++ MindWave.enc3 0 ++ MindWave.enc3 0 ++ MindWave.enc3 1 ++ MindWave.enc3 0 ++ MindWave.enc3 0 ++ MindWave.enc3 0 ++ MindWave.enc3 0)) initialEEGData).1.low_alpha = 0 ∧
    (MindWave.parse_packet (MindWave.CODE_ASIC_EEG_POWER ::
        (MindWave.enc3 0 ++ MindWave.enc3 0 ++ MindWave.enc3 0 ++ MindWave.enc3 1 ++ MindWave.enc3 0 ++ MindWave.enc3 0 ++ MindWave.enc3 0 ++ MindWave.enc3 0)) initialEEGData).1.high_alpha = 1 ∧
    ((MindWave.parse_packet (MindWave.CODE_ASIC_EEG_POWER ::
        (MindWave.enc3 0 ++ MindWave.enc3 0 ++ MindWave.enc3 0 ++ MindWave.enc3 1 ++ MindWave.enc3 0 ++ MindWave.enc3 0 ++ MindWave.enc3 0 ++ MindWave.enc3 0)) initialEEGData).1.alpha : ℚ) ≠ ((0 : ℚ) + 1) / 2 := by
  refine ⟨?_, ?_, ?_⟩ <;>
  · simp [MindWave.enc3, MindWave.parse_packet, MindWave.parse_loop, MindWave.EXCODE,
      MindWave.CODE_POOR_SIGNAL, MindWave.CODE_ATTENTION, MindWave.CODE_MEDITATION,
      MindWave.CODE_RAW_VALUE, MindWave.CODE_ASIC_EEG_POWER]
    try norm_num

/-- Claim C6, amended: parsing a payload made of the band-power code
followed by the 3-byte big-endian encodings of eight integers below
2^24 stores exactly those eight integers in order (delta, theta,
low_alpha, high_alpha, low_beta, high_beta, low_gamma, mid_gamma), and
stores the combined alpha equal to the floor of the average of
low_alpha and high_alpha (integer division by 2, exact only when the
sum is even). -/
theorem spec_c6_band_roundtrip (d : EEGData) (b0 b1 b2 b3 b4 b5 b6 b7 : ℕ)
    (h0 : b0 < 16777216) (h1 : b1 < 16777216) (h2 : b2 < 16777216) (h3 : b3 < 16777216) (h4 : b4 < 16777216) (h5 : b5 < 16777216) (h6 : b6 < 16777216) (h7 : b7 < 16777216) :
    MindWave.parse_packet (MindWave.CODE_ASIC_EEG_POWER :: (MindWave.enc3 b0 ++ MindWave.enc3 b1 ++ MindWave.enc3 b2 ++ MindWave.enc3 b3 ++ MindWave.enc3 b4 ++ MindWave.enc3 b5 ++ MindWave.enc3 b6 ++ MindWave.enc3 b7)) d =
    ({ d with
      delta := b0
      theta := b1
      low_alpha := b2
      high_alpha := b3
      alpha := (b2 + b3) / 2
      low_beta := b4
      high_beta := b5
      low_gamma := b6
      mid_gamma := b7 }, true) := by
  have hp : (MindWave.enc3 b0 ++ MindWave.enc3 b1 ++ MindWave.enc3 b2 ++ MindWave.enc3 b3 ++ MindWave.enc3 b4 ++ MindWave.enc3 b5 ++ MindWave.enc3 b6 ++ MindWave.enc3 b7) =
      [b0 / 65536, b0 / 256 % 256, b0 % 256, b1 / 65536, b1 / 256 % 256, b1 % 256,
       b2 / 65536, b2 / 256 % 256, b2 % 256, b3 / 65536, b3 / 256 % 256, b3 % 256,
       b4 / 65536, b4 / 256 % 256, b4 % 256, b5 / 65536, b5 / 256 % 256, b5 % 256,
       b6 / 65536, b6 / 256 % 256, b6 % 256, b7 / 65536, b7 / 256 % 256, b7 % 256] := by
    simp [MindWave.enc3]
  rw [hp, MindWave.parse_asic_eval]
  simp only [MindWave.enc3_round b0, MindWave.enc3_round b1, MindWave.enc3_round b2,
    MindWave.enc3_round b3, MindWave.enc3_round b4, MindWave.enc3_round b5,
    MindWave.enc3_round b6, MindWave.enc3_round b7]

/-- Claim C6 witness: the round-trip applied to the eight band values
10, 11, ..., 17. -/
theorem spec_c6_band_roundtrip_witness :
    (10 : ℕ) < 16777216 ∧
    MindWave.parse_packet (MindWave.CODE_ASIC_EEG_POWER :: (MindWave.enc3 10 ++ MindWave.enc3 11 ++ MindWave.enc3 12 ++ MindWave.enc3 13 ++ MindWave.enc3 14 ++ MindWave.enc3 15 ++ MindWave.enc3 16 ++ MindWave.enc3 17)) initialEEGData =
    ({ initialEEGData with
      delta := 10
      theta := 11
      low_alpha := 12
      high_alpha := 13
      alpha := (12 + 13) / 2
      low_beta := 14
      high_beta := 15
      low_gamma := 16
      mid_gamma := 17 }, true) :=
  ⟨by norm_num,
   spec_c6_band_roundtrip initialEEGData 10 11 12 13 14 15 16 17 (by norm_num)
     (by norm_num) (by norm_num) (by norm_num) (by norm_num) (by norm_num)
     (by norm_num) (by norm_num)⟩

namespace Tello

theorem connect_eq (replies : List (Option String)) :
    connect replies =
      (reply_is_ok (replies.getD 0 none) || reply_is_ok (replies.getD 1 none) ||
       reply_is_ok (replies.getD 2 none)) := by
  unfold connect
  unfold connect_go
  cases h0 : reply_is_ok (replies.getD 0 none) with
  | true => simp [h0]
  | false =>
    simp only [h0, if_pos (by norm_num : (0:ℕ) < 3), if_false, Bool.false_or]
    unfold connect_go
    cases h1 : reply_is_ok (replies.getD 1 none) with
    | true => simp [h1]
    | false =>
      simp only [h1, if_pos (by norm_num : (1:ℕ) < 3), if_false, Bool.false_or]
      unfold connect_go
      cases h2 : reply_is_ok (replies.getD 2 none) with
      | true => simp [h2]
      | false =>
        simp only [h2, if_pos (by norm_num : (2:ℕ) < 3), if_false]
        unfold connect_go
        simp

theorem reply_is_ok_iff (r : Option String) :
    reply_is_ok r = true ↔ ∃ s, r = some s ∧ s ≠ "" ∧ py_lower s = "ok" := by
  cases r with
  | none => simp [reply_is_ok]
  | some s => simp [reply_is_ok]

end Tello

/-- Claim C8, counterexample to the claim as stated: `connect` succeeds
on the reply "OK" although no attempt received the reply "ok" — the
code compares `response.lower() == "ok"`, which is not an exact match
on the reply text. -/
theorem spec_c8_connect_counterexample :
    Tello.connect [some "OK"] = true ∧ ∀ r ∈ [some "OK"], r ≠ some "ok" := by
  constructor
  · rw [Tello.connect_eq]
    decide
  · decide

/-- Claim C8, amended: `connect` attempts the enter-control-mode command
at most 3 times (only the first three replies matter); it returns
success — which is also the value of the connected flag — if and only
if some attempt receives a nonempty reply that lowercases to "ok" (the
comparison is case-insensitive, so "OK" also succeeds); in particular a
reply "ok" on attempt 2 of 3 succeeds, and three error/timeout replies
fail; and when every `connect` round of the startup retry loop fails,
initialisation fails and the control system sends no command at all —
in particular no 'rc' motion command. -/
theorem spec_c8_connect_retry (replies : List (Option String))
    (reply_rounds : List (List (Option String))) (loop_cmds : List String)
    (hall : ∀ l ∈ reply_rounds, Tello.connect l = false) :
    (Tello.connect replies = true ↔
      ∃ i, i < 3 ∧ ∃ s, replies.getD i none = some s ∧ s ≠ "" ∧ py_lower s = "ok") ∧
    Tello.connect replies = Tello.connect (replies.take 3) ∧
    Tello.connect [some "error", some "ok", none] = true ∧
    Tello.connect [some "error", none, some "error"] = false ∧
    Main.drone_init reply_rounds = false ∧
    Main.start_commands reply_rounds loop_cmds = [] := by
  have hinit : Main.drone_init reply_rounds = false := by
    unfold Main.drone_init
    rw [List.any_eq_false]
    intro l hl
    simp only [Bool.not_eq_true]
    exact hall l (List.mem_of_mem_take hl)
  refine ⟨?_, ?_, ?_, ?_, hinit, ?_⟩
  · rw [Tello.connect_eq]
    constructor
    · intro h
      rcases Bool.or_eq_true_iff.mp h with h01 | h2
      · rcases Bool.or_eq_true_iff.mp h01 with h0 | h1
        · exact ⟨0, by norm_num, (Tello.reply_is_ok_iff _).mp h0⟩
        · exact ⟨1, by norm_num, (Tello.reply_is_ok_iff _).mp h1⟩
      · exact ⟨2, by norm_num, (Tello.reply_is_ok_iff _).mp h2⟩
    · rintro ⟨i, hi, hs⟩
      have hok : Tello.reply_is_ok (replies.getD i none) = true :=
        (Tello.reply_is_ok_iff _).mpr hs
      interval_cases i
      · rw [hok]
        simp
      · rw [hok]
        simp
      · rw [hok]
        simp
  · rw [Tello.connect_eq, Tello.connect_eq]
    have h0 : (replies.take 3).getD 0 none = replies.getD 0 none := by
      simp [List.getElem?_take_of_lt (by norm_num : (0:ℕ) < 3)]
    have h1 : (replies.take 3).getD 1 none = replies.getD 1 none := by
      simp [List.getElem?_take_of_lt (by norm_num : (1:ℕ) < 3)]
    have h2 : (replies.take 3).getD 2 none = replies.getD 2 none := by
      simp [List.getElem?_take_of_lt (by norm_num : (2:ℕ) < 3)]
    rw [h0, h1, h2]
  · rw [Tello.connect_eq]
    decide
  · rw [Tello.connect_eq]
    decide
  · unfold Main.start_commands
    rw [hinit]
    simp

/-- Claim C8 witness: with one startup round whose three handshake
attempts all fail, initialisation sends nothing; and a separate reply
sequence succeeding on attempt 2 connects. -/
theorem spec_c8_connect_retry_witness :
    (∀ l ∈ [[some "error", none, some "error"]], Tello.connect l = false) ∧
    Tello.connect [some "error", some "ok", none] = true ∧
    Main.start_commands [[some "error", none, some "error"]] ["rc 0 0 0 0"] = [] := by
  have hall : ∀ l ∈ [[some "error", none, some "error"]], Tello.connect l = false := by
    intro l hl
    simp only [List.mem_singleton] at hl
    subst hl
    rw [Tello.connect_eq]
    decide
  have h := spec_c8_connect_retry [some "error", some "ok", none]
    [[some "error", none, some "error"]] ["rc 0 0 0 0"] hall
  exact ⟨hall, h.2.2.1, h.2.2.2.2.2⟩
